import Mathlib

/-!
Verification of the breakrs game core, a shallow embedding of the code in
`src/main.rs`: the physics/collision simulation (`GameState::tick` together
with `dot_product`, `magnitude`, `normalize`, `reflect`, `paddle_collision`,
`update_ball_pos`, `update_paddle_pos`, `update_ball_speed`) and the
multiline text compositor (`compute_multiline_text_data`).

Modelling conventions: the program's `f32` values are modelled by the real
numbers (ideal real arithmetic); `usize`/`u32` values by `Nat`.  Fields of
`GameState` that none of the modelled operations read or write (colors,
bricks, the font handle and the debug flags) are omitted; no modelled
operation's behavior depends on them.
-/

namespace Breakrs

noncomputable section

/-- The simulation state, from `struct GameState` in main.rs (physics fields). -/
structure GameState where
  ball_pos_x : ℝ
  ball_pos_y : ℝ
  ball_vel_x : ℝ
  ball_vel_y : ℝ
  ball_diameter : ℝ
  paddle_pos_x : ℝ
  paddle_pos_y : ℝ
  paddle_width : ℝ
  paddle_height : ℝ
  paddle_vel_x : ℝ
  paddle_movement_speed : ℝ

/-- From `fn dot_product` in main.rs. -/
def dot_product (x1 y1 x2 y2 : ℝ) : ℝ :=
  x1 * x2 + y1 * y2

/-- From `fn magnitude` in main.rs. -/
def magnitude (x y : ℝ) : ℝ :=
  Real.sqrt (x * x + y * y)

/-- From `fn normalize` in main.rs (the misspelling `sum_of_sqaures` is the source's). -/
def normalize (x y : ℝ) : ℝ × ℝ :=
  let sum_of_sqaures := x * x + y * y
  let mag := Real.sqrt sum_of_sqaures
  (x / mag, y / mag)

/-- From `fn reflect` in main.rs.  Note that the reflection terms multiply the
raw arguments `x_norm`/`y_norm`, not the normalized components `n.1`/`n.2`. -/
def reflect (x y x_norm y_norm : ℝ) : ℝ × ℝ :=
  let n := normalize x_norm y_norm
  let dot := dot_product x y n.1 n.2
  let x_reflect := x_norm * 2 * dot
  let y_reflect := y_norm * 2 * dot
  (x - x_reflect, y - y_reflect)

/-- From `GameState::paddle_collision` in main.rs. -/
def paddle_collision (s : GameState) : Option ℝ :=
  let dx := s.ball_pos_x + s.ball_vel_x
  let dy := s.ball_pos_y + s.ball_vel_y
  if s.ball_vel_y < 0 ∧ s.paddle_pos_x ≤ dx + s.ball_diameter ∧
      dx < s.paddle_pos_x + s.paddle_width ∧
      dy - s.ball_diameter ≤ s.paddle_pos_y ∧
      s.paddle_pos_y - s.paddle_height ≤ dy then
    let extreme_left := s.paddle_pos_x - s.ball_diameter
    let extreme_right := s.paddle_pos_x + s.paddle_width
    some ((dx - extreme_left) / (extreme_right - extreme_left))
  else
    none

/-- The constant `PADDLE_DIV` from `GameState::update_ball_pos` in main.rs. -/
def PADDLE_DIV : ℝ := 1 / 3

/-- The hit-zone selection from `GameState::update_ball_pos` in main.rs:
maps the paddle hit location to the reflection direction vector. -/
def zoneDir (location : ℝ) : ℝ × ℝ :=
  let sqrt_3 := Real.sqrt 3
  if location < PADDLE_DIV then (-1, sqrt_3)
  else if location < PADDLE_DIV * 2 then (0, 1)
  else (1, sqrt_3)

/-- The paddle-collision branch of `GameState::update_ball_pos` in main.rs:
the ball velocity after the (possible) paddle bounce. -/
def paddleBounceVel (s : GameState) : ℝ × ℝ :=
  match paddle_collision s with
  | some location =>
      let r := zoneDir location
      let original_magnitude := magnitude s.ball_vel_x s.ball_vel_y
      let v := reflect s.ball_vel_x s.ball_vel_y r.1 r.2
      let nv := normalize v.1 v.2
      (nv.1 * original_magnitude, nv.2 * original_magnitude)
  | none => (s.ball_vel_x, s.ball_vel_y)

/-- From `GameState::update_ball_pos` in main.rs: paddle bounce, wall
reflection, then position resolution with fold-back, all computed from the
tentative displacement `(dx, dy)` of the incoming velocity. -/
def update_ball_pos (s : GameState) : GameState :=
  let max_x := 1 - s.ball_diameter
  let min_y := -1 + s.ball_diameter
  let dx := s.ball_pos_x + s.ball_vel_x
  let dy := s.ball_pos_y + s.ball_vel_y
  let v := paddleBounceVel s
  { s with
    ball_vel_x := if dx ≤ -1 ∨ dx ≥ max_x then -v.1 else v.1
    ball_vel_y := if dy ≤ min_y ∨ dy ≥ 1 then -v.2 else v.2
    ball_pos_x :=
      if dx > max_x then max_x - (dx - max_x)
      else if dx < -1 then -1 + (-1 - dx)
      else dx
    ball_pos_y :=
      if dy > 1 then 1 - (dy - 1)
      else if dy < min_y then min_y + (min_y - dy)
      else dy }

/-- From `GameState::update_paddle_pos` in main.rs (`clamp(-1.0, 1.0 - width)`). -/
def update_paddle_pos (s : GameState) : GameState :=
  let max_x := 1 - s.paddle_width
  let p := s.paddle_pos_x + s.paddle_vel_x
  { s with paddle_pos_x := if p < -1 then -1 else if p > max_x then max_x else p }

/-- From `GameState::tick` in main.rs: ball update first, then paddle update. -/
def tick (s : GameState) : GameState :=
  update_paddle_pos (update_ball_pos s)

/-- From `GameState::update_ball_speed` in main.rs. -/
def update_ball_speed (s : GameState) (factor : ℝ) : GameState :=
  { s with
    ball_vel_x := s.ball_vel_x * factor
    ball_vel_y := s.ball_vel_y * factor }

/-- The standard vector reflection formula named by the specification,
`v' = v - 2*(v·n̂)*n̂` with `n̂` the normalized direction vector; stated here
only for comparison against the source's `reflect`. -/
def reflect_spec (x y x_norm y_norm : ℝ) : ℝ × ℝ :=
  let n := normalize x_norm y_norm
  let dot := dot_product x y n.1 n.2
  (x - n.1 * 2 * dot, y - n.2 * 2 * dot)

/-- The per-axis arena bounds that `update_ball_pos` maintains for the ball
position: `pos_x ∈ [-1, 1 - diameter]`, `pos_y ∈ [-1 + diameter, 1]`. -/
def BallInBounds (s : GameState) : Prop :=
  -1 ≤ s.ball_pos_x ∧ s.ball_pos_x ≤ 1 - s.ball_diameter ∧
    -1 + s.ball_diameter ≤ s.ball_pos_y ∧ s.ball_pos_y ≤ 1

/-- The side-wall collision test of `update_ball_pos` triggers
(`dx <= -1.0 || dx >= max_x`). -/
def xWallTriggers (s : GameState) : Prop :=
  s.ball_pos_x + s.ball_vel_x ≤ -1 ∨ s.ball_pos_x + s.ball_vel_x ≥ 1 - s.ball_diameter

/-- The top/bottom wall collision test of `update_ball_pos` triggers
(`dy <= min_y || dy >= 1.0`). -/
def yWallTriggers (s : GameState) : Prop :=
  s.ball_pos_y + s.ball_vel_y ≤ -1 + s.ball_diameter ∨ s.ball_pos_y + s.ball_vel_y ≥ 1

/-- A state whose ball reaches `pos_x = -1` in one tick: ball at the left
bound moving left with the tentative position exactly on the wall. -/
def stateEscape : GameState where
  ball_pos_x := -1/2
  ball_pos_y := 0
  ball_vel_x := -1/2
  ball_vel_y := 0
  ball_diameter := 1/2
  paddle_pos_x := 0
  paddle_pos_y := -4/5
  paddle_width := 1/5
  paddle_height := 1/50
  paddle_vel_x := 0
  paddle_movement_speed := 11/500

/-- A ball at rest in the middle of the arena (program default diameter). -/
def stateRest : GameState where
  ball_pos_x := 0
  ball_pos_y := 0
  ball_vel_x := 0
  ball_vel_y := 0
  ball_diameter := 4/125
  paddle_pos_x := -1/25
  paddle_pos_y := -4/5
  paddle_width := 1/5
  paddle_height := 1/50
  paddle_vel_x := 0
  paddle_movement_speed := 11/500

/-- A state in which the tick order is observable: the ball misses the
paddle at its current position but would hit it after the paddle moves. -/
def stateOrder : GameState where
  ball_pos_x := 11/20
  ball_pos_y := -13/20
  ball_vel_x := 0
  ball_vel_y := -1/10
  ball_diameter := 1/10
  paddle_pos_x := 0
  paddle_pos_y := -4/5
  paddle_width := 1/5
  paddle_height := 1/50
  paddle_vel_x := 1/2
  paddle_movement_speed := 1/2

/-- A state whose tentative ball position crosses the left and the top wall
in the same tick (a corner hit). -/
def stateCorner : GameState where
  ball_pos_x := -19/20
  ball_pos_y := 19/20
  ball_vel_x := -1/10
  ball_vel_y := 1/10
  ball_diameter := 1/50
  paddle_pos_x := 0
  paddle_pos_y := -4/5
  paddle_width := 1/5
  paddle_height := 1/50
  paddle_vel_x := 0
  paddle_movement_speed := 11/500

/-- A state whose tentative ball position crosses only the left wall. -/
def stateLeftWall : GameState where
  ball_pos_x := -19/20
  ball_pos_y := 0
  ball_vel_x := -1/10
  ball_vel_y := 0
  ball_diameter := 1/50
  paddle_pos_x := 0
  paddle_pos_y := -4/5
  paddle_width := 1/5
  paddle_height := 1/50
  paddle_vel_x := 0
  paddle_movement_speed := 11/500

/-- A state in which the ball hits the middle third of the paddle. -/
def stateMidHit : GameState where
  ball_pos_x := 0
  ball_pos_y := -79/100
  ball_vel_x := 0
  ball_vel_y := -1/100
  ball_diameter := 4/125
  paddle_pos_x := -1/10
  paddle_pos_y := -4/5
  paddle_width := 1/5
  paddle_height := 1/50
  paddle_vel_x := 0
  paddle_movement_speed := 11/500

/-- A state in which the ball hits the left third of the paddle. -/
def stateLeftHit : GameState where
  ball_pos_x := -1/10
  ball_pos_y := -79/100
  ball_vel_x := 0
  ball_vel_y := -1/100
  ball_diameter := 4/125
  paddle_pos_x := -1/10
  paddle_pos_y := -4/5
  paddle_width := 1/5
  paddle_height := 1/50
  paddle_vel_x := 0
  paddle_movement_speed := 11/500

/-- The spec's fold-back scenario: ball at `(0.9, 0)`, velocity `(0.05, 0)`,
diameter `0.1`. -/
def stateFold : GameState where
  ball_pos_x := 9/10
  ball_pos_y := 0
  ball_vel_x := 1/20
  ball_vel_y := 0
  ball_diameter := 1/10
  paddle_pos_x := 0
  paddle_pos_y := -4/5
  paddle_width := 1/5
  paddle_height := 1/50
  paddle_vel_x := 0
  paddle_movement_speed := 11/500

/-- The spec's speed-scaling scenario: velocity `(0.0039, 0.0024)` (the
program's default initial velocity). -/
def stateSpeed : GameState where
  ball_pos_x := 0
  ball_pos_y := 0
  ball_vel_x := 39/10000
  ball_vel_y := 3/1250
  ball_diameter := 4/125
  paddle_pos_x := -1/25
  paddle_pos_y := -4/5
  paddle_width := 1/5
  paddle_height := 1/50
  paddle_vel_x := 0
  paddle_movement_speed := 11/500

end

/-- A pixel buffer with a row stride, from `struct Canvas` in main.rs.
Packed `0xRRGGBB` pixels are modelled as `Nat`. -/
structure Canvas where
  buffer : List ℕ
  stride : ℕ

/-- The blank background color `0xFFFFFF` that `compute_text_data`
initializes line bitmaps with and `compute_multiline_text_data` pads with. -/
def blankColor : ℕ := 0xFFFFFF

/-- `canvas.buffer.len() / canvas.stride`, the per-line pixel height
(`Canvas::height`); Nat division, total where the Rust division would
panic on a zero stride. -/
def canvasHeight (c : Canvas) : ℕ := c.buffer.length / c.stride

/-- The row slice `canvas.buffer[stride * y .. stride * y + stride]`. -/
def canvasRow (c : Canvas) (y : ℕ) : List ℕ :=
  (c.buffer.drop (c.stride * y)).take c.stride

/-- One padded line of `compute_multiline_text_data`: every row of the line
canvas followed by the `max_stride - stride` blank extension pixels. -/
def padLine (max_stride : ℕ) (c : Canvas) : List ℕ :=
  ((List.range (canvasHeight c)).map
      (fun y => canvasRow c y ++ List.replicate (max_stride - c.stride) blankColor)).flatten

/-- `lines.iter().map(|canvas| canvas.stride).max().unwrap_or(0)`. -/
def maxStride (lines : List Canvas) : ℕ :=
  (lines.map Canvas.stride).foldr max 0

/-- The sum of the per-line heights. -/
def totalHeight (lines : List Canvas) : ℕ :=
  (lines.map canvasHeight).sum

/-- From `compute_multiline_text_data` in main.rs, taking the already
rasterized per-line bitmaps as input (their rasterization from text is done
by the external font collaborator). -/
def compute_multiline_text_data (lines : List Canvas) : Canvas :=
  let max_stride := maxStride lines
  { buffer := (lines.map (padLine max_stride)).flatten
    stride := max_stride }

/-- Two concrete line bitmaps of different strides (2 and 3). -/
def lines0 : List Canvas := [⟨[1, 2, 3, 4], 2⟩, ⟨[5, 6, 7], 3⟩]

/-! ### Square-root and vector helper lemmas -/

lemma sqrt_three_mul_self : Real.sqrt 3 * Real.sqrt 3 = 3 :=
  Real.mul_self_sqrt (by norm_num)

lemma sqrt_three_pos : 0 < Real.sqrt 3 :=
  Real.sqrt_pos.mpr (by norm_num)

lemma sqrt_four : Real.sqrt 4 = 2 := by
  rw [show (4 : ℝ) = 2 * 2 by norm_num, Real.sqrt_mul_self (by norm_num : (0 : ℝ) ≤ 2)]

lemma magnitude_nonneg (x y : ℝ) : 0 ≤ magnitude x y :=
  Real.sqrt_nonneg _

lemma magnitude_neg_left (x y : ℝ) : magnitude (-x) y = magnitude x y := by
  unfold magnitude
  rw [neg_mul_neg]

lemma magnitude_neg_right (x y : ℝ) : magnitude x (-y) = magnitude x y := by
  unfold magnitude
  rw [neg_mul_neg]

lemma abs_le_magnitude_left (x y : ℝ) : |x| ≤ magnitude x y := by
  rw [← Real.sqrt_mul_self_eq_abs]
  exact Real.sqrt_le_sqrt (by nlinarith [mul_self_nonneg y])

lemma abs_le_magnitude_right (x y : ℝ) : |y| ≤ magnitude x y := by
  rw [← Real.sqrt_mul_self_eq_abs]
  exact Real.sqrt_le_sqrt (by nlinarith [mul_self_nonneg x])

lemma normalize_mag_eq_one (x y : ℝ) (h : x ≠ 0 ∨ y ≠ 0) :
    magnitude (normalize x y).1 (normalize x y).2 = 1 := by
  have hpos : 0 < x * x + y * y := by
    rcases h with h | h
    · have := mul_self_pos.mpr h
      nlinarith [mul_self_nonneg y]
    · have := mul_self_pos.mpr h
      nlinarith [mul_self_nonneg x]
  have hm : 0 < Real.sqrt (x * x + y * y) := Real.sqrt_pos.mpr hpos
  have hmm : Real.sqrt (x * x + y * y) * Real.sqrt (x * x + y * y) = x * x + y * y :=
    Real.mul_self_sqrt hpos.le
  show Real.sqrt
      (x / Real.sqrt (x * x + y * y) * (x / Real.sqrt (x * x + y * y)) +
        y / Real.sqrt (x * x + y * y) * (y / Real.sqrt (x * x + y * y))) = 1
  rw [div_mul_div_comm, div_mul_div_comm, div_add_div_same, hmm, div_self hpos.ne',
    Real.sqrt_one]

lemma magnitude_mul_right (x y c : ℝ) (hc : 0 ≤ c) :
    magnitude (x * c) (y * c) = magnitude x y * c := by
  unfold magnitude
  rw [show x * c * (x * c) + y * c * (y * c) = (x * x + y * y) * (c * c) by ring,
    Real.sqrt_mul (by nlinarith [mul_self_nonneg x, mul_self_nonneg y]),
    Real.sqrt_mul_self hc]

lemma rescale_magnitude (wx wy M : ℝ) (hw : wx ≠ 0 ∨ wy ≠ 0) (hM : 0 ≤ M) :
    magnitude ((normalize wx wy).1 * M) ((normalize wx wy).2 * M) = M := by
  rw [magnitude_mul_right _ _ _ hM, normalize_mag_eq_one wx wy hw, one_mul]

/-! ### The three hit-zone direction vectors under `normalize` and `reflect` -/

lemma normalize_negone_sqrt3 : normalize (-1) (Real.sqrt 3) = (-1 / 2, Real.sqrt 3 / 2) := by
  simp only [normalize]
  rw [show (-1 : ℝ) * -1 + Real.sqrt 3 * Real.sqrt 3 = 4 by rw [sqrt_three_mul_self]; norm_num,
    sqrt_four]

lemma normalize_one_sqrt3 : normalize 1 (Real.sqrt 3) = (1 / 2, Real.sqrt 3 / 2) := by
  simp only [normalize]
  rw [show (1 : ℝ) * 1 + Real.sqrt 3 * Real.sqrt 3 = 4 by rw [sqrt_three_mul_self]; norm_num,
    sqrt_four]

lemma normalize_zero_one : normalize 0 1 = (0, 1) := by
  simp only [normalize]
  norm_num

lemma reflect_left_zone (vx vy : ℝ) :
    reflect vx vy (-1) (Real.sqrt 3) = (Real.sqrt 3 * vy, Real.sqrt 3 * vx - 2 * vy) := by
  unfold reflect dot_product
  rw [normalize_negone_sqrt3]
  simp only [Prod.mk.injEq]
  constructor
  · ring
  · linear_combination (-vy) * sqrt_three_mul_self

lemma reflect_right_zone (vx vy : ℝ) :
    reflect vx vy 1 (Real.sqrt 3) = (-(Real.sqrt 3 * vy), -(Real.sqrt 3 * vx) - 2 * vy) := by
  unfold reflect dot_product
  rw [normalize_one_sqrt3]
  simp only [Prod.mk.injEq]
  constructor
  · ring
  · linear_combination (-vy) * sqrt_three_mul_self

lemma reflect_mid_zone (vx vy : ℝ) : reflect vx vy 0 1 = (vx, -vy) := by
  unfold reflect dot_product
  rw [normalize_zero_one]
  simp only [Prod.mk.injEq]
  constructor
  · ring
  · ring

/-! ### Reduction lemmas for the simulation operations -/

lemma paddle_collision_vy_neg {s : GameState} {loc : ℝ}
    (h : paddle_collision s = some loc) : s.ball_vel_y < 0 := by
  simp only [paddle_collision] at h
  split_ifs at h with hc
  exact hc.1

lemma paddleBounceVel_none {s : GameState} (h : paddle_collision s = none) :
    paddleBounceVel s = (s.ball_vel_x, s.ball_vel_y) := by
  unfold paddleBounceVel
  rw [h]

lemma paddleBounceVel_some {s : GameState} {loc : ℝ} (h : paddle_collision s = some loc) :
    paddleBounceVel s =
      ((normalize (reflect s.ball_vel_x s.ball_vel_y (zoneDir loc).1 (zoneDir loc).2).1
            (reflect s.ball_vel_x s.ball_vel_y (zoneDir loc).1 (zoneDir loc).2).2).1 *
          magnitude s.ball_vel_x s.ball_vel_y,
        (normalize (reflect s.ball_vel_x s.ball_vel_y (zoneDir loc).1 (zoneDir loc).2).1
            (reflect s.ball_vel_x s.ball_vel_y (zoneDir loc).1 (zoneDir loc).2).2).2 *
          magnitude s.ball_vel_x s.ball_vel_y) := by
  unfold paddleBounceVel
  rw [h]

lemma reflect_zone_ne_zero (vx vy loc : ℝ) (hvy : vy < 0) :
    (reflect vx vy (zoneDir loc).1 (zoneDir loc).2).1 ≠ 0 ∨
      (reflect vx vy (zoneDir loc).1 (zoneDir loc).2).2 ≠ 0 := by
  unfold zoneDir
  split_ifs
  · left
    rw [show ((-1 : ℝ), Real.sqrt 3).1 = -1 from rfl, show ((-1 : ℝ), Real.sqrt 3).2 = Real.sqrt 3 from rfl,
      reflect_left_zone]
    exact mul_ne_zero sqrt_three_pos.ne' hvy.ne
  · right
    rw [show ((0 : ℝ), (1 : ℝ)).1 = 0 from rfl, show ((0 : ℝ), (1 : ℝ)).2 = 1 from rfl,
      reflect_mid_zone]
    exact neg_ne_zero.mpr hvy.ne
  · left
    rw [show ((1 : ℝ), Real.sqrt 3).1 = 1 from rfl, show ((1 : ℝ), Real.sqrt 3).2 = Real.sqrt 3 from rfl,
      reflect_right_zone]
    exact neg_ne_zero.mpr (mul_ne_zero sqrt_three_pos.ne' hvy.ne)

lemma paddleBounceVel_magnitude (s : GameState) :
    magnitude (paddleBounceVel s).1 (paddleBounceVel s).2 =
      magnitude s.ball_vel_x s.ball_vel_y := by
  rcases h : paddle_collision s with _ | loc
  · rw [paddleBounceVel_none h]
  · have hvy := paddle_collision_vy_neg h
    rw [paddleBounceVel_some h]
    exact rescale_magnitude _ _ _ (reflect_zone_ne_zero _ _ _ hvy) (magnitude_nonneg _ _)

/-! ### Field projections of the tick operations -/

lemma update_paddle_pos_ball_pos_x (s : GameState) :
    (update_paddle_pos s).ball_pos_x = s.ball_pos_x := rfl

lemma update_paddle_pos_ball_pos_y (s : GameState) :
    (update_paddle_pos s).ball_pos_y = s.ball_pos_y := rfl

lemma update_paddle_pos_ball_vel_x (s : GameState) :
    (update_paddle_pos s).ball_vel_x = s.ball_vel_x := rfl

lemma update_paddle_pos_ball_vel_y (s : GameState) :
    (update_paddle_pos s).ball_vel_y = s.ball_vel_y := rfl

lemma update_paddle_pos_diameter (s : GameState) :
    (update_paddle_pos s).ball_diameter = s.ball_diameter := rfl

lemma update_paddle_pos_pos_x (s : GameState) :
    (update_paddle_pos s).paddle_pos_x =
      if s.paddle_pos_x + s.paddle_vel_x < -1 then -1
      else if s.paddle_pos_x + s.paddle_vel_x > 1 - s.paddle_width then 1 - s.paddle_width
      else s.paddle_pos_x + s.paddle_vel_x := rfl

lemma update_ball_pos_diameter (s : GameState) :
    (update_ball_pos s).ball_diameter = s.ball_diameter := rfl

lemma update_ball_pos_paddle_fields (s : GameState) :
    (update_ball_pos s).paddle_pos_x = s.paddle_pos_x ∧
      (update_ball_pos s).paddle_pos_y = s.paddle_pos_y ∧
      (update_ball_pos s).paddle_width = s.paddle_width ∧
      (update_ball_pos s).paddle_height = s.paddle_height ∧
      (update_ball_pos s).paddle_vel_x = s.paddle_vel_x :=
  ⟨rfl, rfl, rfl, rfl, rfl⟩

lemma update_ball_pos_vel_x (s : GameState) :
    (update_ball_pos s).ball_vel_x =
      if s.ball_pos_x + s.ball_vel_x ≤ -1 ∨ s.ball_pos_x + s.ball_vel_x ≥ 1 - s.ball_diameter
      then -(paddleBounceVel s).1 else (paddleBounceVel s).1 := rfl

lemma update_ball_pos_vel_y (s : GameState) :
    (update_ball_pos s).ball_vel_y =
      if s.ball_pos_y + s.ball_vel_y ≤ -1 + s.ball_diameter ∨ s.ball_pos_y + s.ball_vel_y ≥ 1
      then -(paddleBounceVel s).2 else (paddleBounceVel s).2 := rfl

lemma update_ball_pos_pos_x (s : GameState) :
    (update_ball_pos s).ball_pos_x =
      if s.ball_pos_x + s.ball_vel_x > 1 - s.ball_diameter
      then (1 - s.ball_diameter) - (s.ball_pos_x + s.ball_vel_x - (1 - s.ball_diameter))
      else if s.ball_pos_x + s.ball_vel_x < -1 then -1 + (-1 - (s.ball_pos_x + s.ball_vel_x))
      else s.ball_pos_x + s.ball_vel_x := rfl

lemma update_ball_pos_pos_y (s : GameState) :
    (update_ball_pos s).ball_pos_y =
      if s.ball_pos_y + s.ball_vel_y > 1
      then 1 - (s.ball_pos_y + s.ball_vel_y - 1)
      else if s.ball_pos_y + s.ball_vel_y < -1 + s.ball_diameter
      then (-1 + s.ball_diameter) + ((-1 + s.ball_diameter) - (s.ball_pos_y + s.ball_vel_y))
      else s.ball_pos_y + s.ball_vel_y := rfl

lemma tick_ball_pos_x (s : GameState) : (tick s).ball_pos_x = (update_ball_pos s).ball_pos_x := rfl

lemma tick_ball_pos_y (s : GameState) : (tick s).ball_pos_y = (update_ball_pos s).ball_pos_y := rfl

lemma tick_ball_vel_x (s : GameState) : (tick s).ball_vel_x = (update_ball_pos s).ball_vel_x := rfl

lemma tick_ball_vel_y (s : GameState) : (tick s).ball_vel_y = (update_ball_pos s).ball_vel_y := rfl

lemma tick_diameter (s : GameState) : (tick s).ball_diameter = s.ball_diameter := rfl

/-! ### Evaluation lemmas on the concrete states -/

lemma zoneDir_mid {loc : ℝ} (h1 : ¬ loc < PADDLE_DIV) (h2 : loc < PADDLE_DIV * 2) :
    zoneDir loc = (0, 1) := by
  simp only [zoneDir]
  rw [if_neg h1, if_pos h2]

lemma magnitude_zero_left (y : ℝ) : magnitude 0 y = |y| := by
  unfold magnitude
  rw [show (0 : ℝ) * 0 + y * y = y * y by ring, Real.sqrt_mul_self_eq_abs]

lemma normalize_zero_left {y : ℝ} (hy : 0 < y) : normalize 0 y = (0, 1) := by
  simp only [normalize]
  rw [show (0 : ℝ) * 0 + y * y = y * y by ring, Real.sqrt_mul_self hy.le, zero_div,
    div_self hy.ne']

/-- The paddle bounce of a vertically falling ball off the middle zone just
turns the velocity around. -/
lemma paddleBounceVel_mid_vx_zero {s : GameState} {loc : ℝ}
    (h : paddle_collision s = some loc) (h1 : ¬ loc < PADDLE_DIV) (h2 : loc < PADDLE_DIV * 2)
    (hvx : s.ball_vel_x = 0) :
    paddleBounceVel s = (0, -s.ball_vel_y) := by
  have hvy := paddle_collision_vy_neg h
  rw [paddleBounceVel_some h, zoneDir_mid h1 h2]
  simp only [hvx]
  norm_num [reflect_mid_zone, normalize_zero_left (neg_pos.mpr hvy), magnitude_zero_left,
    abs_of_neg hvy]

lemma paddle_collision_stateEscape : paddle_collision stateEscape = none := by
  simp only [paddle_collision, stateEscape]
  norm_num

lemma paddle_collision_stateCorner : paddle_collision stateCorner = none := by
  simp only [paddle_collision, stateCorner]
  norm_num

lemma paddle_collision_stateLeftWall : paddle_collision stateLeftWall = none := by
  simp only [paddle_collision, stateLeftWall]
  norm_num

lemma paddle_collision_stateFold : paddle_collision stateFold = none := by
  simp only [paddle_collision, stateFold]
  norm_num

lemma paddle_collision_stateOrder : paddle_collision stateOrder = none := by
  simp only [paddle_collision, stateOrder]
  norm_num

lemma paddle_collision_stateMidHit : paddle_collision stateMidHit = some (33 / 58) := by
  simp only [paddle_collision, stateMidHit]
  norm_num

lemma paddle_collision_stateLeftHit : paddle_collision stateLeftHit = some (4 / 29) := by
  simp only [paddle_collision, stateLeftHit]
  norm_num

lemma update_paddle_pos_stateOrder :
    update_paddle_pos stateOrder = { stateOrder with paddle_pos_x := 1 / 2 } := by
  simp only [update_paddle_pos, stateOrder]
  norm_num

lemma paddle_collision_stateOrderMoved :
    paddle_collision { stateOrder with paddle_pos_x := (1 / 2 : ℝ) } = some (1 / 2) := by
  simp only [paddle_collision, stateOrder]
  norm_num

lemma tick_stateEscape_pos_x : (tick stateEscape).ball_pos_x = -1 := by
  rw [tick_ball_pos_x, update_ball_pos_pos_x]
  norm_num [stateEscape]

lemma tick_stateOrder_vel_y : (tick stateOrder).ball_vel_y = -(1 / 10) := by
  rw [tick_ball_vel_y, update_ball_pos_vel_y, paddleBounceVel_none paddle_collision_stateOrder]
  norm_num [stateOrder]

lemma specOrder_vel_y : (update_ball_pos (update_paddle_pos stateOrder)).ball_vel_y = 1 / 10 := by
  rw [update_paddle_pos_stateOrder, update_ball_pos_vel_y,
    paddleBounceVel_mid_vx_zero paddle_collision_stateOrderMoved (by norm_num [PADDLE_DIV])
      (by norm_num [PADDLE_DIV]) (by simp [stateOrder])]
  norm_num [stateOrder]

lemma tick_stateCorner_vel_x : (tick stateCorner).ball_vel_x = 1 / 10 := by
  rw [tick_ball_vel_x, update_ball_pos_vel_x, paddleBounceVel_none paddle_collision_stateCorner]
  norm_num [stateCorner]

lemma tick_stateCorner_vel_y : (tick stateCorner).ball_vel_y = -(1 / 10) := by
  rw [tick_ball_vel_y, update_ball_pos_vel_y, paddleBounceVel_none paddle_collision_stateCorner]
  norm_num [stateCorner]

lemma tick_stateFold_pos_x : (tick stateFold).ball_pos_x = 17 / 20 := by
  rw [tick_ball_pos_x, update_ball_pos_pos_x]
  norm_num [stateFold]

lemma tick_stateFold_vel_x : (tick stateFold).ball_vel_x = -(1 / 20) := by
  rw [tick_ball_vel_x, update_ball_pos_vel_x, paddleBounceVel_none paddle_collision_stateFold]
  norm_num [stateFold]

/-! ### The containment invariant -/

lemma tick_magnitude (s : GameState) :
    magnitude (tick s).ball_vel_x (tick s).ball_vel_y =
      magnitude s.ball_vel_x s.ball_vel_y := by
  rw [tick_ball_vel_x, tick_ball_vel_y, update_ball_pos_vel_x, update_ball_pos_vel_y,
    ← paddleBounceVel_magnitude s]
  split_ifs
  · rw [magnitude_neg_left, magnitude_neg_right]
  · rw [magnitude_neg_left]
  · rw [magnitude_neg_right]
  · rfl

lemma tick_preserves_bounds (s : GameState) (hb : BallInBounds s)
    (hv : magnitude s.ball_vel_x s.ball_vel_y ≤ 2 - s.ball_diameter) :
    BallInBounds (tick s) := by
  obtain ⟨h1, h2, h3, h4⟩ := hb
  obtain ⟨hvx1, hvx2⟩ := abs_le.mp (le_trans (abs_le_magnitude_left _ _) hv)
  obtain ⟨hvy1, hvy2⟩ := abs_le.mp (le_trans (abs_le_magnitude_right _ _) hv)
  unfold BallInBounds
  rw [tick_ball_pos_x, tick_ball_pos_y, tick_diameter, update_ball_pos_pos_x,
    update_ball_pos_pos_y]
  refine ⟨?_, ?_, ?_, ?_⟩ <;> split_ifs <;> linarith

lemma tick_preserves_inv (s : GameState)
    (h : BallInBounds s ∧ magnitude s.ball_vel_x s.ball_vel_y ≤ 2 - s.ball_diameter) :
    BallInBounds (tick s) ∧
      magnitude (tick s).ball_vel_x (tick s).ball_vel_y ≤ 2 - (tick s).ball_diameter := by
  refine ⟨tick_preserves_bounds s h.1 h.2, ?_⟩
  rw [tick_magnitude, tick_diameter]
  exact h.2

lemma iterate_tick_inv (s : GameState) (n : ℕ)
    (h : BallInBounds s ∧ magnitude s.ball_vel_x s.ball_vel_y ≤ 2 - s.ball_diameter) :
    BallInBounds (tick^[n] s) ∧
      magnitude (tick^[n] s).ball_vel_x (tick^[n] s).ball_vel_y ≤
        2 - (tick^[n] s).ball_diameter := by
  induction n with
  | zero => simpa using h
  | succ n ih =>
      rw [Function.iterate_succ_apply']
      exact tick_preserves_inv _ ih

/-! ### Text compositor lemmas -/

lemma stride_le_maxStride (lines : List Canvas) :
    ∀ c ∈ lines, c.stride ≤ maxStride lines := by
  induction lines with
  | nil =>
      intro c hc
      exact absurd hc (List.not_mem_nil c)
  | cons d t ih =>
      intro c hc
      show c.stride ≤ max d.stride (maxStride t)
      rcases List.mem_cons.mp hc with h | h
      · subst h
        exact le_max_left _ _
      · exact le_trans (ih c h) (le_max_right _ _)

lemma canvasRow_length (c : Canvas) (y : ℕ) (hy : y < canvasHeight c) :
    (canvasRow c y).length = c.stride := by
  rcases Nat.eq_zero_or_pos c.stride with h0 | hs
  · rw [canvasHeight, h0, Nat.div_zero] at hy
    exact absurd hy (Nat.not_lt_zero y)
  · have hmul : (y + 1) * c.stride ≤ c.buffer.length :=
      (Nat.le_div_iff_mul_le hs).mp hy
    rw [add_mul, one_mul, mul_comm] at hmul
    unfold canvasRow
    rw [List.length_take, List.length_drop]
    omega

lemma padLine_length (m : ℕ) (c : Canvas) (hc : c.stride ≤ m) :
    (padLine m c).length = canvasHeight c * m := by
  unfold padLine
  rw [List.length_flatten, List.map_map]
  have hcongr : ∀ y ∈ List.range (canvasHeight c),
      (List.length ∘ fun y =>
        canvasRow c y ++ List.replicate (m - c.stride) blankColor) y = (fun _ => m) y := by
    intro y hy
    simp only [Function.comp_apply, List.length_append, List.length_replicate,
      canvasRow_length c y (List.mem_range.mp hy)]
    omega
  rw [List.map_congr_left hcongr, List.map_const', List.sum_replicate, List.length_range,
    smul_eq_mul]

lemma flatten_padLine_length (m : ℕ) (lines : List Canvas)
    (h : ∀ c ∈ lines, c.stride ≤ m) :
    ((lines.map (padLine m)).flatten).length = totalHeight lines * m := by
  induction lines with
  | nil => simp [totalHeight]
  | cons c t ih =>
      have iht := ih (fun d hd => h d (List.mem_cons_of_mem c hd))
      simp only [List.map_cons, List.flatten_cons, List.length_append,
        padLine_length m c (h c (List.mem_cons_self c t)), totalHeight, List.sum_cons] at iht ⊢
      rw [iht]
      ring

lemma flatten_getElem?_uniform {α : Type} (ls : List (List α)) (m : ℕ)
    (h : ∀ l ∈ ls, l.length = m) (k x : ℕ) (hx : x < m) :
    ls.flatten[k * m + x]? = ls[k]?.bind (fun l => l[x]?) := by
  induction ls generalizing k with
  | nil => simp
  | cons l t ih =>
      have hl : l.length = m := h l (List.mem_cons_self l t)
      cases k with
      | zero =>
          simp only [Nat.zero_mul, Nat.zero_add, List.flatten_cons]
          rw [List.getElem?_append_left (by rw [hl]; exact hx)]
          simp
      | succ k =>
          have h1 : (k + 1) * m + x = l.length + (k * m + x) := by
            rw [hl]
            ring
          simp only [List.flatten_cons]
          rw [h1, List.getElem?_append_right (Nat.le_add_right _ _), Nat.add_sub_cancel_left,
            ih (fun l' hl' => h l' (List.mem_cons_of_mem l hl')) k]
          simp

lemma padLine_getElem? (m : ℕ) (c : Canvas) (hc : c.stride ≤ m) (y x : ℕ)
    (hy : y < canvasHeight c) (hx : x < m) :
    (padLine m c)[y * m + x]? =
      if x < c.stride then c.buffer[c.stride * y + x]? else some blankColor := by
  have hlen : ∀ l ∈ (List.range (canvasHeight c)).map
      (fun y => canvasRow c y ++ List.replicate (m - c.stride) blankColor), l.length = m := by
    intro l hl
    obtain ⟨y', hy', rfl⟩ := List.mem_map.mp hl
    rw [List.length_append, List.length_replicate,
      canvasRow_length c y' (List.mem_range.mp hy')]
    omega
  unfold padLine
  rw [flatten_getElem?_uniform _ m hlen y x hx, List.getElem?_map,
    List.getElem?_range hy, Option.map_some', Option.some_bind]
  by_cases hxs : x < c.stride
  · rw [if_pos hxs,
      List.getElem?_append_left (by rw [canvasRow_length c y hy]; exact hxs)]
    unfold canvasRow
    rw [List.getElem?_take, if_pos hxs, List.getElem?_drop]
  · rw [if_neg hxs,
      List.getElem?_append_right (by rw [canvasRow_length c y hy]; omega),
      canvasRow_length c y hy, List.getElem?_replicate, if_pos (by omega)]

lemma multiline_getElem? (pre : List Canvas) (c : Canvas) (post : List Canvas)
    (m : ℕ) (hm : ∀ d ∈ pre ++ c :: post, d.stride ≤ m) (y x : ℕ)
    (hy : y < canvasHeight c) (hx : x < m) :
    ((pre ++ c :: post).map (padLine m)).flatten[(totalHeight pre + y) * m + x]? =
      if x < c.stride then c.buffer[c.stride * y + x]? else some blankColor := by
  induction pre with
  | nil =>
      have hc : c.stride ≤ m := hm c (List.mem_cons_self c post)
      simp only [List.nil_append, List.map_cons, List.flatten_cons, totalHeight,
        List.map_nil, List.sum_nil, Nat.zero_add]
      rw [List.getElem?_append_left ?hlt, padLine_getElem? m c hc y x hy hx]
      case hlt =>
        rw [padLine_length m c hc]
        calc y * m + x < y * m + m := by omega
          _ = (y + 1) * m := by ring
          _ ≤ canvasHeight c * m := Nat.mul_le_mul_right m hy
  | cons d t ih =>
      have hd : d.stride ≤ m := hm d (List.mem_cons_self d _)
      have h1 : (totalHeight (d :: t) + y) * m + x
          = (padLine m d).length + ((totalHeight t + y) * m + x) := by
        rw [padLine_length m d hd]
        simp only [totalHeight, List.map_cons, List.sum_cons]
        ring
      simp only [List.cons_append, List.map_cons, List.flatten_cons]
      rw [h1, List.getElem?_append_right (Nat.le_add_right _ _), Nat.add_sub_cancel_left]
      exact ih (fun d' hd' => hm d' (List.mem_cons_of_mem d hd'))

/-! ### Claim theorems -/

/-- C1: the claim says the paddle bounce reflects the velocity with the
standard formula `v' = v - 2*(v·n̂)*n̂`.  The source's `reflect` instead
scales the reflection term by the unnormalized direction vector: at velocity
`(0, -1)` and the right-zone direction `(1, √3)` it returns `(√3, 2)` while
the standard formula gives `(√3/2, 1/2)`, and the two still differ after the
renormalization-and-rescale step of `update_ball_pos` (the code's final
vertical component is `2/√7`, the spec's `1/2`). -/
theorem C1_reflect_deviates :
    reflect 0 (-1) 1 (Real.sqrt 3) = (Real.sqrt 3, 2) ∧
      reflect_spec 0 (-1) 1 (Real.sqrt 3) = (Real.sqrt 3 / 2, 1 / 2) ∧
      (normalize (Real.sqrt 3) 2).2 * magnitude 0 (-1) ≠
        (normalize (Real.sqrt 3 / 2) (1 / 2)).2 * magnitude 0 (-1) := by
  refine ⟨?_, ?_, ?_⟩
  · unfold reflect dot_product
    rw [normalize_one_sqrt3]
    simp only [Prod.mk.injEq]
    constructor
    · ring
    · linear_combination sqrt_three_mul_self
  · unfold reflect_spec dot_product
    rw [normalize_one_sqrt3]
    simp only [Prod.mk.injEq]
    constructor
    · ring
    · linear_combination (1 / 2) * sqrt_three_mul_self
  · have hm : magnitude 0 (-1) = 1 := by
      rw [magnitude_zero_left]
      norm_num
    have h7 : Real.sqrt 3 * Real.sqrt 3 + 2 * 2 = 7 := by
      rw [sqrt_three_mul_self]
      norm_num
    have hn1 : (normalize (Real.sqrt 3) 2).2 = 2 / Real.sqrt 7 := by
      simp only [normalize]
      rw [h7]
    have hq : Real.sqrt 3 / 2 * (Real.sqrt 3 / 2) + 1 / 2 * (1 / 2) = 1 := by
      rw [div_mul_div_comm, sqrt_three_mul_self]
      norm_num
    have hn2 : (normalize (Real.sqrt 3 / 2) (1 / 2)).2 = 1 / 2 := by
      simp only [normalize]
      rw [hq, Real.sqrt_one, div_one]
    have h7pos : 0 < Real.sqrt 7 := Real.sqrt_pos.mpr (by norm_num)
    have h7lt : Real.sqrt 7 < 4 := by
      nlinarith [Real.sq_sqrt (by norm_num : (0 : ℝ) ≤ 7), Real.sqrt_nonneg 7]
    rw [hm, mul_one, mul_one, hn1, hn2]
    intro heq
    rw [div_eq_div_iff h7pos.ne' (by norm_num : (2 : ℝ) ≠ 0)] at heq
    linarith

/-- C2 counterexample: a state with `|pos| ≤ 1 - diameter` on both axes
whose ball position leaves `[-1 + diameter/2, 1 - diameter/2]` after one
tick — the code's actual lower bound on `pos_x` is `-1`, not
`-1 + diameter/2`. -/
theorem C2_escape_counterexample :
    |stateEscape.ball_pos_x| ≤ 1 - stateEscape.ball_diameter ∧
      |stateEscape.ball_pos_y| ≤ 1 - stateEscape.ball_diameter ∧
      (tick stateEscape).ball_pos_x < -1 + stateEscape.ball_diameter / 2 := by
  refine ⟨?_, ?_, ?_⟩
  · simp only [stateEscape]
    rw [abs_le]
    constructor <;> norm_num
  · simp only [stateEscape]
    rw [abs_le]
    constructor <;> norm_num
  · rw [tick_stateEscape_pos_x]
    norm_num [stateEscape]

/-- C2 (amended): for every initial state with `pos_x ∈ [-1, 1 - diameter]`,
`pos_y ∈ [-1 + diameter, 1]` and velocity magnitude at most `2 - diameter`,
the ball position stays in those per-axis intervals after any number of
`tick` calls — the ball never escapes the arena. -/
theorem C2_ball_containment (s : GameState) (n : ℕ) (hb : BallInBounds s)
    (hv : magnitude s.ball_vel_x s.ball_vel_y ≤ 2 - s.ball_diameter) :
    BallInBounds (tick^[n] s) :=
  (iterate_tick_inv s n ⟨hb, hv⟩).1

/-- C2 witness: the containment theorem applied to a concrete state. -/
theorem C2_ball_containment_witness :
    BallInBounds stateRest ∧
      magnitude stateRest.ball_vel_x stateRest.ball_vel_y ≤ 2 - stateRest.ball_diameter ∧
      BallInBounds (tick^[3] stateRest) := by
  have hb : BallInBounds stateRest := by norm_num [BallInBounds, stateRest]
  have hv : magnitude stateRest.ball_vel_x stateRest.ball_vel_y ≤
      2 - stateRest.ball_diameter := by
    simp only [stateRest]
    rw [magnitude_zero_left]
    norm_num
  exact ⟨hb, hv, C2_ball_containment stateRest 3 hb hv⟩

/-- C3 counterexample: `tick` runs the ball update before the paddle motion;
running the paddle motion first (as claimed) gives an observably different
result — at `stateOrder` the real `tick` leaves `vel_y = -0.1` (no paddle
hit) while the claimed order bounces the ball (`vel_y = 0.1`). -/
theorem C3_order_counterexample :
    (tick stateOrder).ball_vel_y = -(1 / 10) ∧
      (update_ball_pos (update_paddle_pos stateOrder)).ball_vel_y = 1 / 10 ∧
      (tick stateOrder).ball_vel_y ≠
        (update_ball_pos (update_paddle_pos stateOrder)).ball_vel_y := by
  refine ⟨tick_stateOrder_vel_y, specOrder_vel_y, ?_⟩
  rw [tick_stateOrder_vel_y, specOrder_vel_y]
  norm_num

/-- C3 (amended): each tick performs the ball update first — collision is
tested against the paddle's pre-move position, so the resulting ball fields
equal those of `update_ball_pos` alone — and the clamped paddle motion
second, computed from the original paddle position, which the ball update
leaves untouched. -/
theorem C3_tick_order (s : GameState) :
    (tick s).ball_pos_x = (update_ball_pos s).ball_pos_x ∧
      (tick s).ball_pos_y = (update_ball_pos s).ball_pos_y ∧
      (tick s).ball_vel_x = (update_ball_pos s).ball_vel_x ∧
      (tick s).ball_vel_y = (update_ball_pos s).ball_vel_y ∧
      (tick s).paddle_pos_x =
        (if s.paddle_pos_x + s.paddle_vel_x < -1 then -1
         else if s.paddle_pos_x + s.paddle_vel_x > 1 - s.paddle_width then 1 - s.paddle_width
         else s.paddle_pos_x + s.paddle_vel_x) :=
  ⟨rfl, rfl, rfl, rfl, rfl⟩

/-- C4 counterexample: when the tentative position crosses a side wall and
the top wall in the same tick (a corner), both velocity components are
negated, so the wall reflection does not change the sign of exactly one
component. -/
theorem C4_corner_counterexample :
    xWallTriggers stateCorner ∧ yWallTriggers stateCorner ∧
      ¬ (((tick stateCorner).ball_vel_x = -stateCorner.ball_vel_x ∧
            (tick stateCorner).ball_vel_y = stateCorner.ball_vel_y) ∨
          ((tick stateCorner).ball_vel_x = stateCorner.ball_vel_x ∧
            (tick stateCorner).ball_vel_y = -stateCorner.ball_vel_y)) := by
  refine ⟨by norm_num [xWallTriggers, stateCorner],
    by norm_num [yWallTriggers, stateCorner], ?_⟩
  rw [tick_stateCorner_vel_x, tick_stateCorner_vel_y]
  norm_num [stateCorner]

/-- C4 (amended): each triggering wall test negates exactly that axis's
component of the post-paddle-branch velocity, and the wall step never
changes either component's absolute value; when exactly one test triggers,
exactly one component is negated, and at a corner both are. -/
theorem C4_wall_reflection (s : GameState) :
    (xWallTriggers s → ¬ yWallTriggers s →
        (tick s).ball_vel_x = -(paddleBounceVel s).1 ∧
          (tick s).ball_vel_y = (paddleBounceVel s).2) ∧
      (¬ xWallTriggers s → yWallTriggers s →
        (tick s).ball_vel_x = (paddleBounceVel s).1 ∧
          (tick s).ball_vel_y = -(paddleBounceVel s).2) ∧
      (xWallTriggers s → yWallTriggers s →
        (tick s).ball_vel_x = -(paddleBounceVel s).1 ∧
          (tick s).ball_vel_y = -(paddleBounceVel s).2) ∧
      |(tick s).ball_vel_x| = |(paddleBounceVel s).1| ∧
      |(tick s).ball_vel_y| = |(paddleBounceVel s).2| := by
  refine ⟨fun hx hny => ⟨?_, ?_⟩, fun hnx hy => ⟨?_, ?_⟩, fun hx hy => ⟨?_, ?_⟩, ?_, ?_⟩
  · have hx' : s.ball_pos_x + s.ball_vel_x ≤ -1 ∨
        s.ball_pos_x + s.ball_vel_x ≥ 1 - s.ball_diameter := hx
    rw [tick_ball_vel_x, update_ball_pos_vel_x, if_pos hx']
  · have hny' : ¬ (s.ball_pos_y + s.ball_vel_y ≤ -1 + s.ball_diameter ∨
        s.ball_pos_y + s.ball_vel_y ≥ 1) := hny
    rw [tick_ball_vel_y, update_ball_pos_vel_y, if_neg hny']
  · have hnx' : ¬ (s.ball_pos_x + s.ball_vel_x ≤ -1 ∨
        s.ball_pos_x + s.ball_vel_x ≥ 1 - s.ball_diameter) := hnx
    rw [tick_ball_vel_x, update_ball_pos_vel_x, if_neg hnx']
  · have hy' : s.ball_pos_y + s.ball_vel_y ≤ -1 + s.ball_diameter ∨
        s.ball_pos_y + s.ball_vel_y ≥ 1 := hy
    rw [tick_ball_vel_y, update_ball_pos_vel_y, if_pos hy']
  · have hx' : s.ball_pos_x + s.ball_vel_x ≤ -1 ∨
        s.ball_pos_x + s.ball_vel_x ≥ 1 - s.ball_diameter := hx
    rw [tick_ball_vel_x, update_ball_pos_vel_x, if_pos hx']
  · have hy' : s.ball_pos_y + s.ball_vel_y ≤ -1 + s.ball_diameter ∨
        s.ball_pos_y + s.ball_vel_y ≥ 1 := hy
    rw [tick_ball_vel_y, update_ball_pos_vel_y, if_pos hy']
  · by_cases hx : s.ball_pos_x + s.ball_vel_x ≤ -1 ∨
        s.ball_pos_x + s.ball_vel_x ≥ 1 - s.ball_diameter
    · rw [tick_ball_vel_x, update_ball_pos_vel_x, if_pos hx, abs_neg]
    · rw [tick_ball_vel_x, update_ball_pos_vel_x, if_neg hx]
  · by_cases hy : s.ball_pos_y + s.ball_vel_y ≤ -1 + s.ball_diameter ∨
        s.ball_pos_y + s.ball_vel_y ≥ 1
    · rw [tick_ball_vel_y, update_ball_pos_vel_y, if_pos hy, abs_neg]
    · rw [tick_ball_vel_y, update_ball_pos_vel_y, if_neg hy]

/-- C4 witness: the wall reflection theorem applied to a state that crosses
only the left wall. -/
theorem C4_wall_reflection_witness :
    xWallTriggers stateLeftWall ∧ ¬ yWallTriggers stateLeftWall ∧
      (tick stateLeftWall).ball_vel_x = -(paddleBounceVel stateLeftWall).1 ∧
      (tick stateLeftWall).ball_vel_y = (paddleBounceVel stateLeftWall).2 := by
  have hx : xWallTriggers stateLeftWall := by norm_num [xWallTriggers, stateLeftWall]
  have hny : ¬ yWallTriggers stateLeftWall := by norm_num [yWallTriggers, stateLeftWall]
  obtain ⟨h1, h2⟩ := (C4_wall_reflection stateLeftWall).1 hx hny
  exact ⟨hx, hny, h1, h2⟩

/-- C5: whenever a paddle collision is detected, the ball velocity magnitude
immediately after the paddle-collision reflection (before the wall step)
equals the magnitude before it. -/
theorem C5_paddle_bounce_magnitude (s : GameState) (loc : ℝ)
    (_h : paddle_collision s = some loc) :
    magnitude (paddleBounceVel s).1 (paddleBounceVel s).2 =
      magnitude s.ball_vel_x s.ball_vel_y :=
  paddleBounceVel_magnitude s

/-- C5 witness: the magnitude-preservation theorem applied to a concrete
middle-zone paddle hit. -/
theorem C5_paddle_bounce_magnitude_witness :
    paddle_collision stateMidHit = some (33 / 58) ∧
      magnitude (paddleBounceVel stateMidHit).1 (paddleBounceVel stateMidHit).2 =
        magnitude stateMidHit.ball_vel_x stateMidHit.ball_vel_y :=
  ⟨paddle_collision_stateMidHit,
    C5_paddle_bounce_magnitude stateMidHit (33 / 58) paddle_collision_stateMidHit⟩

/-- C6: when the tentative position overshoots a bound, the resolved
position is the overshoot folded back symmetrically inside the bound
(`max_x - (dx - max_x)` at the upper bound and symmetrically at the others),
not clamped. -/
theorem C6_fold_back (s : GameState) (hd : s.ball_diameter ≤ 2) :
    (s.ball_pos_x + s.ball_vel_x > 1 - s.ball_diameter →
        (tick s).ball_pos_x =
          (1 - s.ball_diameter) - (s.ball_pos_x + s.ball_vel_x - (1 - s.ball_diameter))) ∧
      (s.ball_pos_x + s.ball_vel_x < -1 →
        (tick s).ball_pos_x = -1 + (-1 - (s.ball_pos_x + s.ball_vel_x))) ∧
      (s.ball_pos_y + s.ball_vel_y > 1 →
        (tick s).ball_pos_y = 1 - (s.ball_pos_y + s.ball_vel_y - 1)) ∧
      (s.ball_pos_y + s.ball_vel_y < -1 + s.ball_diameter →
        (tick s).ball_pos_y =
          (-1 + s.ball_diameter) + ((-1 + s.ball_diameter) - (s.ball_pos_y + s.ball_vel_y))) := by
  refine ⟨fun h => ?_, fun h => ?_, fun h => ?_, fun h => ?_⟩
  · rw [tick_ball_pos_x, update_ball_pos_pos_x, if_pos h]
  · rw [tick_ball_pos_x, update_ball_pos_pos_x, if_neg (by linarith), if_pos h]
  · rw [tick_ball_pos_y, update_ball_pos_pos_y, if_pos h]
  · rw [tick_ball_pos_y, update_ball_pos_pos_y, if_neg (by linarith), if_pos h]

/-- C6 witness: the spec's concrete scenario — ball at `(0.9, 0)`, velocity
`(0.05, 0)`, diameter `0.1` — ends the tick with `pos_x = 0.85` and
`vel_x = -0.05`. -/
theorem C6_fold_back_witness :
    stateFold.ball_diameter ≤ 2 ∧
      stateFold.ball_pos_x + stateFold.ball_vel_x > 1 - stateFold.ball_diameter ∧
      (tick stateFold).ball_pos_x =
        (1 - stateFold.ball_diameter) -
          (stateFold.ball_pos_x + stateFold.ball_vel_x - (1 - stateFold.ball_diameter)) ∧
      (tick stateFold).ball_pos_x = 17 / 20 ∧
      (tick stateFold).ball_vel_x = -(1 / 20) := by
  have hd : stateFold.ball_diameter ≤ 2 := by norm_num [stateFold]
  have h : stateFold.ball_pos_x + stateFold.ball_vel_x > 1 - stateFold.ball_diameter := by
    norm_num [stateFold]
  exact ⟨hd, h, (C6_fold_back stateFold hd).1 h, tick_stateFold_pos_x, tick_stateFold_vel_x⟩

/-- C7: the hit-zone selection partitions `[0, 1]` into three equal thirds
mapped to `(-1, √3)`, `(0, 1)` and `(1, √3)`, and the boundaries `1/3` and
`2/3` deterministically fall into the middle and right zone respectively
(the comparisons are strict `<` against `1/3` and `2/3`). -/
theorem C7_zone_partition :
    (∀ loc : ℝ, loc < 1 / 3 → zoneDir loc = (-1, Real.sqrt 3)) ∧
      (∀ loc : ℝ, 1 / 3 ≤ loc → loc < 2 / 3 → zoneDir loc = (0, 1)) ∧
      (∀ loc : ℝ, 2 / 3 ≤ loc → zoneDir loc = (1, Real.sqrt 3)) ∧
      zoneDir (1 / 3) = (0, 1) ∧ zoneDir (2 / 3) = (1, Real.sqrt 3) := by
  refine ⟨fun loc h => ?_, fun loc h1 h2 => ?_, fun loc h => ?_, ?_, ?_⟩
  · simp only [zoneDir, PADDLE_DIV]
    rw [if_pos h]
  · simp only [zoneDir, PADDLE_DIV]
    rw [if_neg (not_lt.mpr h1), if_pos (by linarith)]
  · simp only [zoneDir, PADDLE_DIV]
    rw [if_neg (not_lt.mpr (by linarith)), if_neg (not_lt.mpr (by linarith))]
  · simp only [zoneDir, PADDLE_DIV]
    norm_num
  · simp only [zoneDir, PADDLE_DIV]
    norm_num

/-- C7 witness: the zone partition theorem applied at `1/2`, `1/3` and `2/3`. -/
theorem C7_zone_partition_witness :
    (1 : ℝ) / 3 ≤ 1 / 2 ∧ (1 : ℝ) / 2 < 2 / 3 ∧ zoneDir (1 / 2) = (0, 1) ∧
      zoneDir (1 / 3) = (0, 1) ∧ zoneDir (2 / 3) = (1, Real.sqrt 3) :=
  ⟨by norm_num, by norm_num,
    C7_zone_partition.2.1 (1 / 2) (by norm_num) (by norm_num),
    C7_zone_partition.2.2.2.1, C7_zone_partition.2.2.2.2⟩

/-- C8: for every list of line bitmaps (with the positive strides the Rust
division requires), the multiline output has the single stride
`max(line.stride)`, its length is `(sum of line heights) * max_stride` so its
height is the sum of the per-line heights, the lines are concatenated
top-to-bottom, and every row is the line's row right-padded with the blank
background color. -/
theorem C8_multiline (lines : List Canvas) (hpos : ∀ c ∈ lines, 0 < c.stride) :
    (compute_multiline_text_data lines).stride = maxStride lines ∧
      (compute_multiline_text_data lines).buffer.length =
        totalHeight lines * maxStride lines ∧
      canvasHeight (compute_multiline_text_data lines) = totalHeight lines ∧
      ∀ pre c post, lines = pre ++ c :: post →
        ∀ y x, y < canvasHeight c → x < maxStride lines →
          (compute_multiline_text_data lines).buffer[(totalHeight pre + y) *
              maxStride lines + x]? =
            if x < c.stride then c.buffer[c.stride * y + x]? else some blankColor := by
  refine ⟨rfl, flatten_padLine_length _ lines (stride_le_maxStride lines), ?_, ?_⟩
  · show ((lines.map (padLine (maxStride lines))).flatten).length / maxStride lines =
      totalHeight lines
    rw [flatten_padLine_length _ lines (stride_le_maxStride lines)]
    cases lines with
    | nil => simp [totalHeight]
    | cons c t =>
        have hms : 0 < maxStride (c :: t) :=
          lt_of_lt_of_le (hpos c (List.mem_cons_self c t))
            (stride_le_maxStride _ c (List.mem_cons_self c t))
        exact Nat.mul_div_cancel _ hms
  · intro pre c post hs y x hy hx
    subst hs
    exact multiline_getElem? pre c post (maxStride _)
      (stride_le_maxStride (pre ++ c :: post)) y x hy hx

/-- C8 witness: the multiline theorem applied to two concrete lines of
strides 2 and 3, including a padded pixel of the first (shorter) line. -/
theorem C8_multiline_witness :
    (∀ c ∈ lines0, 0 < c.stride) ∧
      (compute_multiline_text_data lines0).stride = maxStride lines0 ∧
      (compute_multiline_text_data lines0).buffer.length =
        totalHeight lines0 * maxStride lines0 := by
  have h : ∀ c ∈ lines0, 0 < c.stride := by decide
  exact ⟨h, (C8_multiline lines0 h).1, (C8_multiline lines0 h).2.1⟩

/-- C9: `update_ball_speed` multiplies both velocity components by the
factor; in particular factor `1.05` applied to `(0.0039, 0.0024)` yields
`(0.004095, 0.00252)`. -/
theorem C9_scale_speed :
    (∀ (s : GameState) (factor : ℝ),
        (update_ball_speed s factor).ball_vel_x = s.ball_vel_x * factor ∧
          (update_ball_speed s factor).ball_vel_y = s.ball_vel_y * factor) ∧
      (update_ball_speed stateSpeed (21 / 20)).ball_vel_x = 4095 / 1000000 ∧
      (update_ball_speed stateSpeed (21 / 20)).ball_vel_y = 63 / 25000 := by
  refine ⟨fun s factor => ⟨rfl, rfl⟩, ?_, ?_⟩
  · show stateSpeed.ball_vel_x * (21 / 20) = (4095 / 1000000 : ℝ)
    norm_num [stateSpeed]
  · show stateSpeed.ball_vel_y * (21 / 20) = (63 / 25000 : ℝ)
    norm_num [stateSpeed]

/-- C10: when a paddle collision is detected, the velocity entering the
reflection is nonzero (its vertical component is negative), and the
reflected vector handed to the second `normalize` call is nonzero for the
selected zone direction, so no zero-vector normalization is reachable in the
paddle branch. -/
theorem C10_no_zero_normalize (s : GameState) (loc : ℝ)
    (h : paddle_collision s = some loc) :
    ¬ (s.ball_vel_x = 0 ∧ s.ball_vel_y = 0) ∧
      ((reflect s.ball_vel_x s.ball_vel_y (zoneDir loc).1 (zoneDir loc).2).1 ≠ 0 ∨
        (reflect s.ball_vel_x s.ball_vel_y (zoneDir loc).1 (zoneDir loc).2).2 ≠ 0) := by
  have hvy := paddle_collision_vy_neg h
  exact ⟨fun hz => absurd hz.2 hvy.ne, reflect_zone_ne_zero _ _ _ hvy⟩

/-- C10 witness: the non-degeneracy theorem applied to a concrete left-zone
paddle hit. -/
theorem C10_no_zero_normalize_witness :
    paddle_collision stateLeftHit = some (4 / 29) ∧
      ((reflect stateLeftHit.ball_vel_x stateLeftHit.ball_vel_y
            (zoneDir (4 / 29)).1 (zoneDir (4 / 29)).2).1 ≠ 0 ∨
        (reflect stateLeftHit.ball_vel_x stateLeftHit.ball_vel_y
            (zoneDir (4 / 29)).1 (zoneDir (4 / 29)).2).2 ≠ 0) :=
  ⟨paddle_collision_stateLeftHit,
    (C10_no_zero_normalize stateLeftHit (4 / 29) paddle_collision_stateLeftHit).2⟩

end Breakrs
